import Mathlib

/-!
Verification of the market_share_report QAQC pipeline.

This file gives a shallow embedding of the data-processing logic of the
repository (the flat scripts `qaqc_vendor_data.py` / `qaqc_computed_data.py`
and the `src/` pipeline modules) and proves properties of the
classification, formatting, period-window, rollup and column-validation
code.

Modelling conventions:
- Python floats are modelled by `PFloat` (NaN, signed infinity, or a
  rational value) where non-finite values matter, and by `ℚ` where the
  source only produces finite values.  A float column that may hold NaN
  because of a guarded division is modelled as `Option ℚ` (`none` = NaN);
  in pandas, ordered comparisons against NaN/NA evaluate to false, which
  the models reproduce where they consume such a value.
- `month` values ("YYYY-MM" strings parsed with `pd.to_datetime`) are
  modelled as natural month indices (12 * year + (monthOfYear - 1)), so
  "one calendar month before m" is `m - 1`.
- DataFrame columns are modelled row-wise; a raw CSV row is an
  association list from present column names to cell text.
- Python's `round(x, 2)` (and pandas `Series.round(2)`) is modelled as
  rounding to the nearest multiple of 1/100; the tie-breaking convention
  (banker's rounding on binary floats) differs from `round` on `ℚ` only
  at exact ties, which none of the evaluated inputs hit.
-/

/-- A Python float as far as the QAQC code distinguishes values: NaN,
an infinity (`pd.isna` is false, `np.isinf` is true), or a finite value. -/
inductive PFloat where
| nan : PFloat
| inf : Bool → PFloat
| val : ℚ → PFloat
deriving DecidableEq, Repr

/-- Combined `pd.isna(v) or np.isinf(v)` test used by the percent formatters. -/
def PFloat.isNaOrInf : PFloat → Bool
| .nan => true
| .inf _ => true
| .val _ => false

/-- CPython text rendering (`str` / f-string) of a float that is an exact
multiple of 0.01, taking `n` in centi-units: minimal decimal digits with at
least one digit after the point (`5000 ↦ "50.0"`, `1235 ↦ "12.35"`,
`1230 ↦ "12.3"`, `5 ↦ "0.05"`).  Python's shortest-roundtrip repr of
`round(x, 2)` prints exactly these digits for such values. -/
def render_float_repr (n : ℤ) : String :=
  let sign := if n < 0 then "-" else ""
  let m := n.natAbs
  let ip := m / 100
  let fr := m % 100
  sign ++ toString ip ++ "." ++
    (if fr % 10 = 0 then toString (fr / 10)
     else (if fr < 10 then "0" else "") ++ toString fr)

/-- Maximum of a list of month indices (the last element of the sorted
distinct months in the source). -/
def list_max (l : List ℕ) : ℕ := l.foldr max 0

namespace QaqcVendorData

/-- Threshold `COVERAGE_PASS_RATIO = 0.95` from qaqc_vendor_data.py. -/
def COVERAGE_PASS_RATIO : ℚ := 0.95

/-- Threshold `SELLER_DROP_THRESHOLD = 0.80` from qaqc_vendor_data.py. -/
def SELLER_DROP_THRESHOLD : ℚ := 0.80

/-- Threshold `ABNORMAL_INCREASE_THRESHOLD = 2.00` from qaqc_vendor_data.py. -/
def ABNORMAL_INCREASE_THRESHOLD : ℚ := 2.00

/-- `safe_ratio(num, den)` from qaqc_vendor_data.py: `np.nan` (here `none`)
when the denominator is zero, otherwise the quotient. -/
def safe_ratio (num den : ℚ) : Option ℚ :=
  if den = 0 then none else some (num / den)

/-- `classify_pairwise_status(prev_val, latest_val, ratio)` from
qaqc_vendor_data.py, lines 152-164.  `ratio = none` models a NaN ratio
(`pd.isna(ratio)` true). -/
def classify_pairwise_status (prev_val latest_val : ℚ) (ratio : Option ℚ) : String :=
  if prev_val = 0 ∧ 0 < latest_val then "new-in-latest"
  else if 0 < prev_val ∧ latest_val = 0 then "missing-in-latest"
  else
    match ratio with
    | none => "no-baseline"
    | some r =>
      if ABNORMAL_INCREASE_THRESHOLD ≤ r then "abnormal-increase"
      else if r < SELLER_DROP_THRESHOLD then "abnormal-drop"
      else "normal"

/-- `format_percent_ratio(v)` from qaqc_vendor_data.py, lines 96-100:
`"-"` for NaN/inf, otherwise `f"{round(v * 100, 2)}%"`. -/
def format_percent_ratio (v : PFloat) : String :=
  match v with
  | .nan => "-"
  | .inf _ => "-"
  | .val q => render_float_repr (round (q * 100 * 100)) ++ "%"

/-- `classify_trend_status(months_observed, latest_spu, median_spu)` from
qaqc_vendor_data.py, lines 350-362. -/
def classify_trend_status (months_observed : ℕ) (latest_spu median_spu : ℚ) : String :=
  if months_observed < 2 then "insufficient-history"
  else if median_spu = 0 then "no-baseline"
  else
    let ratio := latest_spu / median_spu
    if ABNORMAL_INCREASE_THRESHOLD ≤ ratio then "abnormal-increase"
    else if ratio < SELLER_DROP_THRESHOLD then "abnormal-drop"
    else "normal"

/-- `detect_latest_prev_month(df)` from qaqc_vendor_data.py, lines 82-93:
takes the parsed month values of all rows, requires at least two distinct
months, and returns `(latest, latest - 1 month)` WITHOUT checking that the
previous month is present in the data. -/
def detect_latest_prev_month (months : List ℕ) : Except String (ℕ × ℕ) :=
  if (months.dedup).length < 2 then
    Except.error "Need at least 2 months in raw data to run pairwise QAQC (latest vs prev)."
  else
    Except.ok (list_max months, list_max months - 1)

/-- `REQUIRED_COLS` from qaqc_vendor_data.py (the set literal, in source
order). -/
def REQUIRED_COLS : List String :=
  ["country", "platform", "month", "seller_used_id", "spu_used_id", "source"]

/-- `REQUIRED_COLS - set(df.columns)` for one input file. -/
def missing_required (cols : List String) : List String :=
  REQUIRED_COLS.filter (fun c => ¬ cols.contains c)

/-- The required-column validation performed per file inside
`read_raw_all()` (qaqc_vendor_data.py, lines 113-124): raise a ValueError
naming the file and the missing columns, else accept the file. -/
def read_raw_file_check (fname : String) (cols : List String) : Except String Unit :=
  if missing_required cols = [] then Except.ok ()
  else Except.error (fname ++ " missing columns: " ++ String.intercalate ", " (missing_required cols))

end QaqcVendorData

namespace QaqcComputedData

/-- `SPIKE_GROWTH_RATE_REVENUE = 2` from qaqc_computed_data.py (a growth
rate, compared against `growth_rate_revenue_raw = delta / prev`). -/
def SPIKE_GROWTH_RATE_REVENUE : ℚ := 2

/-- `BASE_EFFECT_REVENUE_PREV = 100.0` from qaqc_computed_data.py. -/
def BASE_EFFECT_REVENUE_PREV : ℚ := 100.0

/-- `TREND_DROP_THRESHOLD = 0.80` from qaqc_computed_data.py. -/
def TREND_DROP_THRESHOLD : ℚ := 0.80

/-- `TREND_INCREASE_THRESHOLD = 2.00` from qaqc_computed_data.py. -/
def TREND_INCREASE_THRESHOLD : ℚ := 2.00

/-- `MIN_MONTHS_OBSERVED_FOR_TREND = 2` from qaqc_computed_data.py. -/
def MIN_MONTHS_OBSERVED_FOR_TREND : ℕ := 2

/-- `safe_div(a, b)` from qaqc_computed_data.py: the denominator's zeros
are replaced by missing values before dividing, so a zero denominator
yields a missing ratio (`none`). -/
def safe_div (a b : ℚ) : Option ℚ :=
  if b = 0 then none else some (a / b)

/-- One row of the inner-joined prev/latest merge built by
`run_pairwise_qaqc` (qaqc_computed_data.py, lines 208-257), restricted to
the columns the abnormal classification reads. -/
structure PairRow where
  final_revenue_prev : ℚ
  final_revenue_latest : ℚ
  computation_label_prev : Option String
  computation_label_latest : Option String
deriving DecidableEq, Repr

/-- Column `delta_final_revenue = final_revenue_latest - final_revenue_prev`. -/
def delta_final_revenue (r : PairRow) : ℚ :=
  r.final_revenue_latest - r.final_revenue_prev

/-- Column `growth_rate_revenue_raw = safe_div(delta_final_revenue,
final_revenue_prev)`. -/
def growth_rate_revenue_raw (r : PairRow) : Option ℚ :=
  safe_div (delta_final_revenue r) r.final_revenue_prev

/-- Column `is_spike = growth_rate_revenue_raw >= SPIKE_GROWTH_RATE_REVENUE`;
a missing growth rate does not compare greater-or-equal in pandas. -/
def is_spike (r : PairRow) : Bool :=
  match growth_rate_revenue_raw r with
  | none => false
  | some g => decide (SPIKE_GROWTH_RATE_REVENUE ≤ g)

/-- Column `is_base_effect = final_revenue_prev < BASE_EFFECT_REVENUE_PREV`. -/
def is_base_effect (r : PairRow) : Bool :=
  decide (r.final_revenue_prev < BASE_EFFECT_REVENUE_PREV)

/-- Column `is_source_switch = computation_label_prev != computation_label_latest`
(both label columns are present in the merged frame).  Pandas object-dtype
`!=` treats a null operand as unequal to everything, itself included, so
any row with a null label on either side compares as switched. -/
def is_source_switch (r : PairRow) : Bool :=
  match r.computation_label_prev, r.computation_label_latest with
  | some a, some b => a != b
  | _, _ => true

/-- `classify(row)` from qaqc_computed_data.py, lines 236-243. -/
def abnormal_type (r : PairRow) : String :=
  if is_spike r = false then "none"
  else if is_base_effect r = true then "base-effect"
  else if is_source_switch r = true then "source-switch"
  else "spike-out-trend"

/-- Column `abnormal_flag = abnormal_type != "none"`. -/
def abnormal_flag (r : PairRow) : Bool :=
  abnormal_type r != "none"

/-- `risk(row)` from qaqc_computed_data.py, lines 248-255, as a function of
the `abnormal_type` column value it reads. -/
def risk_level (abnormal_type_value : String) : String :=
  if abnormal_type_value = "spike-out-trend" then "high"
  else if abnormal_type_value = "source-switch" then "medium"
  else if abnormal_type_value = "base-effect" then "low"
  else "none"

/-- Column `risk_level = df.apply(risk, axis=1)`: `risk` applied to the
row's `abnormal_type`. -/
def risk_level_row (r : PairRow) : String :=
  risk_level (abnormal_type r)

/-- Elementwise behaviour of `format_percent_series` (qaqc_computed_data.py,
lines 68-85): invalid (NaN/±inf) values render as "-", valid values as
`(s * 100).round(2)` rendered by pandas' string cast, plus "%". -/
def format_percent_elem (v : PFloat) : String :=
  match v with
  | .nan => "-"
  | .inf _ => "-"
  | .val q => render_float_repr (round (q * 100 * 100)) ++ "%"

/-- `format_percent_series(series)`: the elementwise map over the series. -/
def format_percent_series (s : List PFloat) : List String :=
  s.map format_percent_elem

/-- `classify_trend_status(months_observed, ratio)` from
qaqc_computed_data.py, lines 116-125; the non-`val` branches are the
`pd.isna(ratio) or np.isinf(ratio)` test. -/
def classify_trend_status (months_observed : ℕ) (ratio : PFloat) : String :=
  if months_observed < MIN_MONTHS_OBSERVED_FOR_TREND then "insufficient-history"
  else
    match ratio with
    | .nan => "no-baseline"
    | .inf _ => "no-baseline"
    | .val q =>
      if TREND_INCREASE_THRESHOLD ≤ q then "abnormal-increase"
      else if q < TREND_DROP_THRESHOLD then "abnormal-drop"
      else "normal"

/-- `detect_latest_prev_month_from_all(df_months)` from
qaqc_computed_data.py, lines 88-107: requires at least two distinct
months, sets `prev = latest - 1 month`, and errors when `prev` is not
among the existing months. -/
def detect_latest_prev_month_from_all (months : List ℕ) : Except String (ℕ × ℕ) :=
  if (months.dedup).length < 2 then
    Except.error "Need at least 2 distinct months to compare"
  else
    if list_max months - 1 ∈ months then
      Except.ok (list_max months, list_max months - 1)
    else
      Except.error ("Missing previous month (contiguous) data. latest=" ++
        toString (list_max months) ++ ", expected prev=" ++ toString (list_max months - 1) ++
        ", but prev not found in computed files.")

end QaqcComputedData

namespace CheckCountryPlatformLevel

/-- `THRESHOLD = 0.95` from check_country_platform_level.py. -/
def THRESHOLD : ℚ := 0.95

/-- One row of the seller-level result consumed by
`run_check_country_platform_level` (the columns its aggregation reads). -/
structure SellerRow where
  country : String
  platform : String
  seller_scope_flag : String
  seller_status : String
deriving DecidableEq, Repr

/-- `seller_total_in_scope = (g["seller_scope_flag"] == "in_scope").sum()`
for one (country, platform) group `g`. -/
def seller_total_in_scope (g : List SellerRow) : ℕ :=
  (g.filter (fun r => decide (r.seller_scope_flag = "in_scope"))).length

/-- `seller_normal_all = (g["seller_status"] == "Normal").sum()` for one
(country, platform) group `g` (counted over in-scope and out-of-scope rows). -/
def seller_normal_all (g : List SellerRow) : ℕ :=
  (g.filter (fun r => decide (r.seller_status = "Normal"))).length

/-- The `seller_rate` lambda from check_country_platform_level.py, lines
59-65: `normal / total_in_scope` when the denominator is positive, else 0. -/
def seller_rate (g : List SellerRow) : ℚ :=
  if 0 < seller_total_in_scope g then
    (seller_normal_all g : ℚ) / (seller_total_in_scope g : ℚ)
  else 0

/-- `seller_check_good = seller_rate >= THRESHOLD` (line 67).  Groups
absent from one input are later filled with rate 0.0 and flag False by the
merge's fillna step, matching the zero-denominator case. -/
def seller_check_good (g : List SellerRow) : Bool :=
  decide (THRESHOLD ≤ seller_rate g)

end CheckCountryPlatformLevel

namespace NormalizeRawVendorData

/-- `CANONICAL_COLS` from normalize_raw_vendor_data.py, in source order. -/
def CANONICAL_COLS : List String :=
  ["spu_used_id", "month", "spu_name", "spu_url", "seller_name", "seller_url",
   "seller_used_id", "source", "country", "platform", "vendor_group",
   "vendor_group_type", "asp", "historical_quantity", "historical_rating"]

/-- Cell lookup in one raw CSV row, modelled as an association list from
the file's column names to cell text. -/
def lookup_col (row : List (String × String)) (c : String) : Option String :=
  (row.find? (fun p => decide (p.1 = c))).map (fun p => p.2)

/-- The canonical projection of one raw row performed by
`normalize_raw_vendor_data` (normalize_raw_vendor_data.py, lines 142-147):
canonical columns absent from the file's column set are created filled
with the null sentinel (`none`), then exactly the canonical columns are
kept.  `vendor_group` / `vendor_group_type` are always assigned by the
vendor-group resolution (vendor_id, else time_scraped, else the
SINGLE_SOURCE sentinel) before this projection; the resolved pair is the
`vg` parameter. -/
def normalize_row (cols : List String) (vg : List (String × String) → String × String)
    (row : List (String × String)) : List (String × Option String) :=
  CANONICAL_COLS.map (fun c =>
    (c, if c = "vendor_group" then some (vg row).1
        else if c = "vendor_group_type" then some (vg row).2
        else if cols.contains c then lookup_col row c
        else none))

/-- Cell lookup in a canonical row (a missing entry reads as null). -/
def canon_get (r : List (String × Option String)) (c : String) : Option String :=
  ((r.find? (fun p => decide (p.1 = c))).map (fun p => p.2)).getD none

/-- The normalized rows kept from one chunk:
`chunk[CANONICAL_COLS].dropna(subset=["spu_used_id", "month"])`. -/
def normalized_rows (cols : List String) (vg : List (String × String) → String × String)
    (rows : List (List (String × String))) : List (List (String × Option String)) :=
  (rows.map (normalize_row cols vg)).filter
    (fun r => (canon_get r "spu_used_id").isSome && (canon_get r "month").isSome)

/-- Chunk processing outcome of `normalize_raw_vendor_data`: the column
handling never raises — a file missing canonical (including required)
columns is still normalized, with the missing columns defaulted to null. -/
def normalize_chunk (cols : List String) (vg : List (String × String) → String × String)
    (rows : List (List (String × String))) :
    Except String (List (List (String × Option String))) :=
  Except.ok (normalized_rows cols vg rows)

end NormalizeRawVendorData

namespace CheckMetricSameMonth

/-- One record of the normalized_raw_vendor_data table, restricted to the
columns read by check_metric_same_month.py (metrics are nullable). -/
structure RawRow where
  spu_used_id : String
  month : String
  vendor_group : Option String
  asp : Option ℚ
  historical_quantity : Option ℚ
  historical_rating : Option ℚ
deriving DecidableEq, Repr

/-- `tmp_same_month_vendor_cnt` (check_metric_same_month.py, lines 28-37):
`COUNT(DISTINCT vendor_group)` over the rows of one (spu_used_id, month)
group whose vendor_group IS NOT NULL. -/
def vendor_group_count (rows : List RawRow) (spu month : String) : ℕ :=
  ((((rows.filter (fun r => decide (r.spu_used_id = spu ∧ r.month = month))).filterMap
    (fun r => r.vendor_group))).dedup).length

/-- One `{metric}_ratio` entry of the threshold configuration:
`min_pct` / `max_pct` band. -/
structure Band where
  min_pct : ℚ
  max_pct : ℚ
deriving DecidableEq, Repr

/-- The `METRICS` list with each metric's column accessor. -/
def METRICS : List (String × (RawRow → Option ℚ)) :=
  [("asp", RawRow.asp),
   ("historical_quantity", RawRow.historical_quantity),
   ("historical_rating", RawRow.historical_rating)]

/-- `tmp_same_month_{metric}` values for one (spu_used_id, month) group:
the rows of the group whose metric IS NOT NULL. -/
def metric_values (rows : List RawRow) (spu month : String) (get : RawRow → Option ℚ) : List ℚ :=
  (rows.filter (fun r => decide (r.spu_used_id = spu ∧ r.month = month))).filterMap get

/-- `MIN({metric})` over a group (none when the LEFT JOIN finds no rows). -/
def qmin : List ℚ → Option ℚ
| [] => none
| h :: t => some (t.foldl min h)

/-- `MAX({metric})` over a group (none when the LEFT JOIN finds no rows). -/
def qmax : List ℚ → Option ℚ
| [] => none
| h :: t => some (t.foldl max h)

/-- One output row of metric_same_month_result.csv. -/
structure SameMonthOutRow where
  spu_used_id : String
  month : String
  metric_name : String
  vendor_group_count : ℕ
  ratio_pct : ℚ
  check_result : String
deriving DecidableEq, Repr

/-- The per-metric body of the scan loop (check_metric_same_month.py,
lines 114-136): skip null or non-positive minima, compute
`ratio_pct = max / min * 100`, and emit a fail row when the ratio falls
outside the metric's configured band. -/
def check_metric (rows : List RawRow) (cfg : String → Band) (fail_status : String)
    (spu month : String) (cnt : ℕ) (metric : String × (RawRow → Option ℚ)) :
    Option SameMonthOutRow :=
  match qmin (metric_values rows spu month metric.2), qmax (metric_values rows spu month metric.2) with
  | some min_v, some max_v =>
    if min_v ≤ 0 then none
    else
      let ratio_pct := max_v / min_v * 100
      let mcfg := cfg metric.1
      if mcfg.min_pct ≤ ratio_pct ∧ ratio_pct ≤ mcfg.max_pct then none
      else some ⟨spu, month, metric.1, cnt, ratio_pct, fail_status⟩
  | _, _ => none

/-- `run_spu_metric_same_month_checks`: the scan query joins the
vendor-count groups (only those with `vendor_group_count >= 2`, lines
64-82) with the per-metric min/max tables and the loop emits only failing
(spu, month, metric) rows. -/
def run_spu_metric_same_month (rows : List RawRow) (cfg : String → Band)
    (fail_status : String) : List SameMonthOutRow :=
  (((rows.filter (fun r => decide (r.vendor_group ≠ none))).map
      (fun r => (r.spu_used_id, r.month))).dedup.filter
    (fun k => decide (2 ≤ vendor_group_count rows k.1 k.2))).flatMap
    (fun k =>
      METRICS.filterMap (check_metric rows cfg fail_status k.1 k.2 (vendor_group_count rows k.1 k.2)))

/-- Two observations of one SPU-month from two vendor groups whose asp
values differ by 10x: a fixture for evaluating the same-month check. -/
def sample_rows : List RawRow :=
  [⟨"S1", "2024-01", some "A", some 1, none, none⟩,
   ⟨"S1", "2024-01", some "B", some 10, none, none⟩]

/-- Fixture thresholds: every metric's band is [90%, 110%]. -/
def sample_cfg : String → Band := fun _ => ⟨90, 110⟩

end CheckMetricSameMonth

/-- C1: classify_pairwise_status is total and deterministic (it is a Lean
function) and follows the fixed precedence: previous = 0 and current > 0
gives "new-in-latest"; else previous > 0 and current = 0 gives
"missing-in-latest"; else a NaN ratio gives "no-baseline"; else
ratio ≥ 2.00 gives "abnormal-increase"; else ratio < 0.80 gives
"abnormal-drop"; else "normal"; and (previous = 0, current = 5) yields
"new-in-latest" regardless of the ratio. -/
theorem classify_pairwise_status_precedence (p c : ℚ) (r : Option ℚ) :
    (p = 0 → 0 < c → QaqcVendorData.classify_pairwise_status p c r = "new-in-latest") ∧
    (0 < p → c = 0 → QaqcVendorData.classify_pairwise_status p c r = "missing-in-latest") ∧
    (¬(p = 0 ∧ 0 < c) → ¬(0 < p ∧ c = 0) → r = none →
      QaqcVendorData.classify_pairwise_status p c r = "no-baseline") ∧
    (∀ q, ¬(p = 0 ∧ 0 < c) → ¬(0 < p ∧ c = 0) → r = some q → 2 ≤ q →
      QaqcVendorData.classify_pairwise_status p c r = "abnormal-increase") ∧
    (∀ q, ¬(p = 0 ∧ 0 < c) → ¬(0 < p ∧ c = 0) → r = some q → q < 0.80 →
      QaqcVendorData.classify_pairwise_status p c r = "abnormal-drop") ∧
    (∀ q, ¬(p = 0 ∧ 0 < c) → ¬(0 < p ∧ c = 0) → r = some q → 0.80 ≤ q → q < 2 →
      QaqcVendorData.classify_pairwise_status p c r = "normal") ∧
    (QaqcVendorData.classify_pairwise_status 0 5 r = "new-in-latest") := by
  unfold QaqcVendorData.classify_pairwise_status
    QaqcVendorData.ABNORMAL_INCREASE_THRESHOLD QaqcVendorData.SELLER_DROP_THRESHOLD
  refine ⟨?_, ?_, ?_, ?_, ?_, ?_, ?_⟩
  · intro hp hc
    rw [if_pos ⟨hp, hc⟩]
  · intro hp hc
    rw [if_neg (by rintro ⟨h0, _⟩; exact absurd h0 hp.ne'), if_pos ⟨hp, hc⟩]
  · intro h1 h2 hr
    subst hr
    rw [if_neg h1, if_neg h2]
  · intro q h1 h2 hr hq
    subst hr
    rw [if_neg h1, if_neg h2]
    simp only
    rw [if_pos (by norm_num; linarith)]
  · intro q h1 h2 hr hq
    subst hr
    rw [if_neg h1, if_neg h2]
    simp only
    norm_num at hq
    rw [if_neg (by norm_num; linarith), if_pos (by norm_num; linarith)]
  · intro q h1 h2 hr hq1 hq2
    subst hr
    rw [if_neg h1, if_neg h2]
    simp only
    norm_num at hq1
    rw [if_neg (by norm_num; linarith), if_neg (by norm_num; linarith)]
  · rw [if_pos ⟨rfl, by norm_num⟩]

/-- Witness for C1: at (previous = 0, current = 5, ratio = some 10) the
first precedence case applies and the status is "new-in-latest". -/
theorem classify_pairwise_status_precedence_witness :
    QaqcVendorData.classify_pairwise_status 0 5 (some 10) = "new-in-latest" :=
  (classify_pairwise_status_precedence 0 5 (some 10)).1 rfl (by norm_num)

/-- C10: at previous = 0 and current = 0 the guarded ratio 0/0 is NaN
(`safe_ratio` returns `none`) and `classify_pairwise_status` returns
"no-baseline" — not "new-in-latest", "missing-in-latest", or "normal". -/
theorem classify_pairwise_status_zero_zero :
    QaqcVendorData.safe_ratio 0 0 = none ∧
    QaqcVendorData.classify_pairwise_status 0 0 (QaqcVendorData.safe_ratio 0 0) = "no-baseline" := by
  constructor
  · rfl
  · rfl

/-- Evaluation lemma: for a nonzero previous revenue, `is_spike` compares
the growth rate (latest - prev)/prev against 2. -/
lemma is_spike_eval (p l : ℚ) (lp ll : Option String) (hp : p ≠ 0) :
    QaqcComputedData.is_spike ⟨p, l, lp, ll⟩ = decide (2 ≤ (l - p) / p) := by
  unfold QaqcComputedData.is_spike QaqcComputedData.growth_rate_revenue_raw
    QaqcComputedData.safe_div QaqcComputedData.delta_final_revenue
    QaqcComputedData.SPIKE_GROWTH_RATE_REVENUE
  rw [if_neg hp]

/-- Evaluation lemma: a non-spike row has abnormal_type "none" and
abnormal_flag false. -/
lemma abnormal_type_of_not_spike (r : QaqcComputedData.PairRow)
    (h : QaqcComputedData.is_spike r = false) :
    QaqcComputedData.abnormal_type r = "none" ∧ QaqcComputedData.abnormal_flag r = false := by
  have ht : QaqcComputedData.abnormal_type r = "none" := by
    simp [QaqcComputedData.abnormal_type, h]
  exact ⟨ht, by simp [QaqcComputedData.abnormal_flag, ht]⟩

/-- C2 counterexample: at previous revenue 100 and latest revenue 250 the
revenue ratio 250/100 = 2.5 is at least the threshold 2.00, yet the row is
not classified as a spike (the code compares the growth rate
(latest - prev)/prev = 1.5 against 2, not the ratio). -/
theorem revenue_spike_ratio_counterexample :
    (2 : ℚ) ≤ 250 / 100 ∧
    QaqcComputedData.is_spike ⟨100, 250, some "L1", some "L1"⟩ = false ∧
    QaqcComputedData.abnormal_flag ⟨100, 250, some "L1", some "L1"⟩ = false ∧
    QaqcComputedData.abnormal_type ⟨100, 250, some "L1", some "L1"⟩ = "none" := by
  have hs : QaqcComputedData.is_spike ⟨100, 250, some "L1", some "L1"⟩ = false := by
    rw [is_spike_eval 100 250 (some "L1") (some "L1") (by norm_num)]
    simp only [decide_eq_false_iff_not]
    norm_num
  have ha := abnormal_type_of_not_spike _ hs
  exact ⟨by norm_num, hs, ha.2, ha.1⟩

/-- C2 amended: for every entity present in both periods with positive
previous revenue, the row is classified as a spike exactly when the growth
rate (latest - prev)/prev is at least 2.00, i.e. when the revenue ratio
latest/prev is at least 3.00; and abnormal_flag agrees with is_spike, so
rows with ratio below 3.00 (in particular below 2.00) are never spikes. -/
theorem revenue_spike_threshold_amended (r : QaqcComputedData.PairRow)
    (hp : 0 < r.final_revenue_prev) :
    (QaqcComputedData.is_spike r = true ↔ 3 ≤ r.final_revenue_latest / r.final_revenue_prev) ∧
    QaqcComputedData.abnormal_flag r = QaqcComputedData.is_spike r := by
  constructor
  · unfold QaqcComputedData.is_spike QaqcComputedData.growth_rate_revenue_raw
      QaqcComputedData.safe_div QaqcComputedData.delta_final_revenue
      QaqcComputedData.SPIKE_GROWTH_RATE_REVENUE
    rw [if_neg hp.ne']
    simp only [decide_eq_true_eq]
    rw [sub_div, div_self hp.ne']
    constructor
    · intro h; linarith
    · intro h; linarith
  · cases h : QaqcComputedData.is_spike r
    · simp [QaqcComputedData.abnormal_flag, QaqcComputedData.abnormal_type, h]
    · simp only [QaqcComputedData.abnormal_flag, QaqcComputedData.abnormal_type, h]
      split_ifs <;> simp_all

/-- Witness for C2 (amended): previous revenue 100 and latest revenue 300
give ratio exactly 3.00 and are classified as a spike. -/
theorem revenue_spike_threshold_amended_witness :
    QaqcComputedData.is_spike ⟨100, 300, some "L1", some "L1"⟩ = true :=
  ((revenue_spike_threshold_amended ⟨100, 300, some "L1", some "L1"⟩ (by norm_num)).1).2
    (by norm_num)

/-- C3: evaluation of both percent formatters at the failing input 0.5 and
at NaN/±inf.  Ratio 0.5 renders as "50.0%" (round then default float
repr, no two-decimal padding), not the "50.00%" promised by the docstring;
NaN and infinities render as "-". -/
theorem format_percent_half_divergence :
    QaqcVendorData.format_percent_ratio (.val (1 / 2)) = "50.0%" ∧
    QaqcComputedData.format_percent_series [.val (1 / 2), .nan, .inf true, .inf false] =
      ["50.0%", "-", "-", "-"] ∧
    QaqcVendorData.format_percent_ratio .nan = "-" ∧
    QaqcVendorData.format_percent_ratio (.inf true) = "-" ∧
    ("50.0%" ≠ "50.00%") := by
  have hr : round ((1 / 2 : ℚ) * 100 * 100) = 5000 := by
    rw [round_eq]
    norm_num
  refine ⟨?_, ?_, rfl, rfl, by decide⟩
  · show render_float_repr (round ((1 / 2 : ℚ) * 100 * 100)) ++ "%" = "50.0%"
    rw [hr]
    decide
  · show [render_float_repr (round ((1 / 2 : ℚ) * 100 * 100)) ++ "%", "-", "-", "-"] =
      ["50.0%", "-", "-", "-"]
    rw [hr]
    decide

/-- C4: both trend classifiers (qaqc_vendor_data.py and
qaqc_computed_data.py) follow the fixed precedence: months_observed < 2
gives "insufficient-history" regardless of any ratio; otherwise a zero
baseline (vendor version) or an undefined/infinite ratio (computed
version) gives "no-baseline"; otherwise ratio ≥ 2.00 gives
"abnormal-increase"; otherwise ratio < 0.80 gives "abnormal-drop";
otherwise "normal". -/
theorem trend_status_precedence (m : ℕ) (latest median : ℚ) (r : PFloat) :
    (m < 2 → QaqcVendorData.classify_trend_status m latest median = "insufficient-history" ∧
      QaqcComputedData.classify_trend_status m r = "insufficient-history") ∧
    (2 ≤ m → median = 0 → QaqcVendorData.classify_trend_status m latest median = "no-baseline") ∧
    (2 ≤ m → r.isNaOrInf = true → QaqcComputedData.classify_trend_status m r = "no-baseline") ∧
    (2 ≤ m → median ≠ 0 → 2 ≤ latest / median →
      QaqcVendorData.classify_trend_status m latest median = "abnormal-increase") ∧
    (2 ≤ m → median ≠ 0 → latest / median < 0.80 →
      QaqcVendorData.classify_trend_status m latest median = "abnormal-drop") ∧
    (2 ≤ m → median ≠ 0 → 0.80 ≤ latest / median → latest / median < 2 →
      QaqcVendorData.classify_trend_status m latest median = "normal") ∧
    (∀ q, 2 ≤ m → r = .val q → 2 ≤ q →
      QaqcComputedData.classify_trend_status m r = "abnormal-increase") ∧
    (∀ q, 2 ≤ m → r = .val q → q < 0.80 →
      QaqcComputedData.classify_trend_status m r = "abnormal-drop") ∧
    (∀ q, 2 ≤ m → r = .val q → 0.80 ≤ q → q < 2 →
      QaqcComputedData.classify_trend_status m r = "normal") := by
  unfold QaqcVendorData.classify_trend_status QaqcComputedData.classify_trend_status
    QaqcVendorData.ABNORMAL_INCREASE_THRESHOLD QaqcVendorData.SELLER_DROP_THRESHOLD
    QaqcComputedData.TREND_INCREASE_THRESHOLD QaqcComputedData.TREND_DROP_THRESHOLD
    QaqcComputedData.MIN_MONTHS_OBSERVED_FOR_TREND
  refine ⟨?_, ?_, ?_, ?_, ?_, ?_, ?_, ?_, ?_⟩
  · intro hm
    rw [if_pos hm, if_pos hm]
    exact ⟨rfl, rfl⟩
  · intro hm hmed
    rw [if_neg (not_lt.2 hm), if_pos hmed]
  · intro hm hr
    rw [if_neg (not_lt.2 hm)]
    cases r with
    | nan => rfl
    | inf b => rfl
    | val q => simp [PFloat.isNaOrInf] at hr
  · intro hm hmed hratio
    rw [if_neg (not_lt.2 hm), if_neg hmed]
    simp only
    rw [if_pos (by norm_num; linarith)]
  · intro hm hmed hratio
    rw [if_neg (not_lt.2 hm), if_neg hmed]
    simp only
    norm_num at hratio
    rw [if_neg (by norm_num; linarith), if_pos (by norm_num; linarith)]
  · intro hm hmed h1 h2
    rw [if_neg (not_lt.2 hm), if_neg hmed]
    simp only
    norm_num at h1
    rw [if_neg (by norm_num; linarith), if_neg (by norm_num; linarith)]
  · intro q hm hr hq
    subst hr
    rw [if_neg (not_lt.2 hm)]
    simp only
    rw [if_pos (by norm_num; linarith)]
  · intro q hm hr hq
    subst hr
    rw [if_neg (not_lt.2 hm)]
    simp only
    norm_num at hq
    rw [if_neg (by norm_num; linarith), if_pos (by norm_num; linarith)]
  · intro q hm hr h1 h2
    subst hr
    rw [if_neg (not_lt.2 hm)]
    simp only
    norm_num at h1
    rw [if_neg (by norm_num; linarith), if_neg (by norm_num; linarith)]

/-- Witness for C4: months_observed = 1 yields "insufficient-history" in
both classifiers even though the ratio 5/1 = 5 would otherwise be
"abnormal-increase". -/
theorem trend_status_precedence_witness :
    QaqcVendorData.classify_trend_status 1 5 1 = "insufficient-history" ∧
    QaqcComputedData.classify_trend_status 1 (.val 5) = "insufficient-history" :=
  (trend_status_precedence 1 5 1 (.val 5)).1 (by norm_num)

/-- C5 counterexample: with months 2024-01 and 2024-03 (indices 24288 and
24290) there are two distinct months and no record carries the expected
previous month 2024-02 (index 24289), yet the vendor-data pairwise stage's
`detect_latest_prev_month` succeeds with (2024-03, 2024-02) instead of
failing fast — the stage then proceeds against an empty previous period. -/
theorem period_window_counterexample :
    QaqcVendorData.detect_latest_prev_month [24288, 24290] = Except.ok (24290, 24289) ∧
    (24289 ∉ [24288, 24290]) ∧
    2 ≤ ([24288, 24290].dedup).length := by
  refine ⟨?_, by decide, by decide⟩
  rfl

/-- C5 amended: for every dataset with at least two distinct months the
window is (latest, latest - 1 calendar month); the computed-data stage
(`detect_latest_prev_month_from_all`) fails fast when no record carries
that previous month, while the vendor-data stage
(`detect_latest_prev_month`) returns the window without checking that the
previous month is present. -/
theorem period_window_contiguity (months : List ℕ) (h2 : 2 ≤ (months.dedup).length) :
    QaqcVendorData.detect_latest_prev_month months =
      Except.ok (list_max months, list_max months - 1) ∧
    (list_max months - 1 ∈ months →
      QaqcComputedData.detect_latest_prev_month_from_all months =
        Except.ok (list_max months, list_max months - 1)) ∧
    (list_max months - 1 ∉ months →
      QaqcComputedData.detect_latest_prev_month_from_all months =
        Except.error ("Missing previous month (contiguous) data. latest=" ++
          toString (list_max months) ++ ", expected prev=" ++ toString (list_max months - 1) ++
          ", but prev not found in computed files.")) := by
  have hnl : ¬ ((months.dedup).length < 2) := not_lt.2 h2
  refine ⟨?_, ?_, ?_⟩
  · unfold QaqcVendorData.detect_latest_prev_month
    rw [if_neg hnl]
  · intro hm
    unfold QaqcComputedData.detect_latest_prev_month_from_all
    rw [if_neg hnl, if_pos hm]
  · intro hm
    unfold QaqcComputedData.detect_latest_prev_month_from_all
    rw [if_neg hnl, if_neg hm]

/-- Witness for C5 (amended): with contiguous months 2024-01 and 2024-02
(indices 24288, 24289) the computed-data stage succeeds with the window
(2024-02, 2024-01). -/
theorem period_window_contiguity_witness :
    QaqcComputedData.detect_latest_prev_month_from_all [24288, 24289] =
      Except.ok (24289, 24288) := by
  have h := (period_window_contiguity [24288, 24289] (by decide)).2.1 (by decide)
  exact h

/-- C6: a spike is sub-classified with fixed precedence — "base-effect"
when the previous revenue is below the floor 100, else "source-switch"
when the computation_label changed between the periods, else
"spike-out-trend" — and the risk level is the pure function of the
sub-classification mapping spike-out-trend to high, source-switch to
medium, base-effect to low and none to none; non-spike rows get type
"none" and risk "none". -/
theorem spike_subclassification_and_risk (r : QaqcComputedData.PairRow) :
    (QaqcComputedData.is_spike r = true → r.final_revenue_prev < 100 →
      QaqcComputedData.abnormal_type r = "base-effect") ∧
    (QaqcComputedData.is_spike r = true → ¬ (r.final_revenue_prev < 100) →
      QaqcComputedData.is_source_switch r = true →
      QaqcComputedData.abnormal_type r = "source-switch") ∧
    (QaqcComputedData.is_spike r = true → ¬ (r.final_revenue_prev < 100) →
      QaqcComputedData.is_source_switch r = false →
      QaqcComputedData.abnormal_type r = "spike-out-trend") ∧
    (QaqcComputedData.is_spike r = false → QaqcComputedData.abnormal_type r = "none") ∧
    QaqcComputedData.risk_level_row r =
      QaqcComputedData.risk_level (QaqcComputedData.abnormal_type r) ∧
    QaqcComputedData.risk_level "spike-out-trend" = "high" ∧
    QaqcComputedData.risk_level "source-switch" = "medium" ∧
    QaqcComputedData.risk_level "base-effect" = "low" ∧
    QaqcComputedData.risk_level "none" = "none" ∧
    (QaqcComputedData.is_spike r = false → QaqcComputedData.risk_level_row r = "none") := by
  have h100 : QaqcComputedData.BASE_EFFECT_REVENUE_PREV = 100 := by
    norm_num [QaqcComputedData.BASE_EFFECT_REVENUE_PREV]
  have hbase : r.final_revenue_prev < 100 → QaqcComputedData.is_base_effect r = true := by
    intro h
    unfold QaqcComputedData.is_base_effect
    rw [h100]
    simpa using h
  have hbase' : ¬ (r.final_revenue_prev < 100) → QaqcComputedData.is_base_effect r = false := by
    intro h
    unfold QaqcComputedData.is_base_effect
    rw [h100]
    simpa using h
  refine ⟨?_, ?_, ?_, ?_, rfl, rfl, rfl, rfl, rfl, ?_⟩
  · intro hs hb
    simp [QaqcComputedData.abnormal_type, hs, hbase hb]
  · intro hs hb hw
    simp [QaqcComputedData.abnormal_type, hs, hbase' hb, hw]
  · intro hs hb hw
    simp [QaqcComputedData.abnormal_type, hs, hbase' hb, hw]
  · intro hs
    simp [QaqcComputedData.abnormal_type, hs]
  · intro hs
    simp [QaqcComputedData.risk_level_row, QaqcComputedData.risk_level,
      QaqcComputedData.abnormal_type, hs]

/-- Witness for C6: previous revenue 50, latest revenue 500 (growth rate 9)
is a spike with previous below the floor, classified "base-effect" with
risk "low". -/
theorem spike_subclassification_and_risk_witness :
    QaqcComputedData.abnormal_type ⟨50, 500, some "L1", some "L1"⟩ = "base-effect" :=
  (spike_subclassification_and_risk ⟨50, 500, some "L1", some "L1"⟩).1
    (by rw [is_spike_eval 50 500 (some "L1") (some "L1") (by norm_num)]; simpa using by norm_num)
    (by norm_num)

/-- C8: in the country-by-platform rollup, a (country, platform) group
whose in-scope count is 0 gets coverage rate exactly 0 (the guarded
division never divides by zero) and check_good False. -/
theorem coverage_rate_zero_scope (g : List CheckCountryPlatformLevel.SellerRow)
    (h : CheckCountryPlatformLevel.seller_total_in_scope g = 0) :
    CheckCountryPlatformLevel.seller_rate g = 0 ∧
    CheckCountryPlatformLevel.seller_check_good g = false := by
  have hrate : CheckCountryPlatformLevel.seller_rate g = 0 := by
    unfold CheckCountryPlatformLevel.seller_rate
    rw [if_neg (by rw [h]; exact lt_irrefl 0)]
  refine ⟨hrate, ?_⟩
  unfold CheckCountryPlatformLevel.seller_check_good CheckCountryPlatformLevel.THRESHOLD
  rw [hrate]
  simp only [decide_eq_false_iff_not]
  norm_num

/-- Witness for C8: a group holding one out-of-scope abnormal seller has
in-scope count 0, rate 0 and check_good False. -/
theorem coverage_rate_zero_scope_witness :
    CheckCountryPlatformLevel.seller_rate [⟨"PH", "LAZ", "out_scope", "Abnormal"⟩] = 0 ∧
    CheckCountryPlatformLevel.seller_check_good [⟨"PH", "LAZ", "out_scope", "Abnormal"⟩] = false :=
  coverage_rate_zero_scope [⟨"PH", "LAZ", "out_scope", "Abnormal"⟩] (by decide)

/-- C9 counterexample: a raw file missing required columns does NOT always
fail the run.  `read_raw_all` (vendor QAQC script) raises the column-list
error, but the normalize step accepts a file carrying only spu_used_id and
month and proceeds, defaulting country, platform, seller_used_id and
source to null. -/
theorem required_columns_counterexample :
    QaqcVendorData.read_raw_file_check "file1.csv"
      ["platform", "month", "seller_used_id", "spu_used_id", "source"] =
      Except.error "file1.csv missing columns: country" ∧
    NormalizeRawVendorData.normalize_chunk ["spu_used_id", "month"]
      (fun _ => ("SINGLE_SOURCE", "single_source"))
      [[("spu_used_id", "p1"), ("month", "2024-01")]] =
      Except.ok [[("spu_used_id", some "p1"), ("month", some "2024-01"),
        ("spu_name", none), ("spu_url", none), ("seller_name", none), ("seller_url", none),
        ("seller_used_id", none), ("source", none), ("country", none), ("platform", none),
        ("vendor_group", some "SINGLE_SOURCE"), ("vendor_group_type", some "single_source"),
        ("asp", none), ("historical_quantity", none), ("historical_rating", none)]] := by
  constructor
  · rfl
  · rfl

/-- Helper: looking up `c` in a row built by mapping `x ↦ (x, f x)` over a
column list containing `c` yields `f c`. -/
lemma find_map_self (l : List String) (f : String → Option String) (c : String) (hc : c ∈ l) :
    (l.map (fun x => (x, f x))).find? (fun p => decide (p.1 = c)) = some (c, f c) := by
  induction l with
  | nil => cases hc
  | cons a t ih =>
    by_cases hac : a = c
    · subst hac
      simp [List.find?]
    · have hct : c ∈ t := by
        rcases List.mem_cons.1 hc with h | h
        · exact absurd h.symm hac
        · exact h
      simpa [List.find?, hac] using ih hct

/-- C9 amended: `read_raw_all` fails a file missing required columns with
an error naming the file and the missing columns (and accepts a complete
file), while the normalize step never fails on missing columns: it
normalizes every chunk, filling each absent canonical column (other than
the always-resolved vendor_group pair) with null in every kept row. -/
theorem required_columns_amended (fname : String) (cols : List String)
    (vg : List (String × String) → String × String) (rows : List (List (String × String))) :
    (QaqcVendorData.missing_required cols ≠ [] →
      QaqcVendorData.read_raw_file_check fname cols =
        Except.error (fname ++ " missing columns: " ++
          String.intercalate ", " (QaqcVendorData.missing_required cols))) ∧
    (QaqcVendorData.missing_required cols = [] →
      QaqcVendorData.read_raw_file_check fname cols = Except.ok ()) ∧
    NormalizeRawVendorData.normalize_chunk cols vg rows =
      Except.ok (NormalizeRawVendorData.normalized_rows cols vg rows) ∧
    (∀ r ∈ NormalizeRawVendorData.normalized_rows cols vg rows,
      ∀ c ∈ NormalizeRawVendorData.CANONICAL_COLS, c ≠ "vendor_group" →
        c ≠ "vendor_group_type" → cols.contains c = false →
        NormalizeRawVendorData.canon_get r c = none) := by
  refine ⟨?_, ?_, rfl, ?_⟩
  · intro hmiss
    unfold QaqcVendorData.read_raw_file_check
    rw [if_neg hmiss]
  · intro hmiss
    unfold QaqcVendorData.read_raw_file_check
    rw [if_pos hmiss]
  · intro r hr c hc hvg hvgt hcols
    unfold NormalizeRawVendorData.normalized_rows at hr
    obtain ⟨hr', _⟩ := List.mem_filter.1 hr
    obtain ⟨row, _, hrow⟩ := List.mem_map.1 hr'
    subst hrow
    unfold NormalizeRawVendorData.normalize_row NormalizeRawVendorData.canon_get
    rw [find_map_self NormalizeRawVendorData.CANONICAL_COLS _ c hc]
    have hnotin : c ∉ cols := by simpa using hcols
    simp [hvg, hvgt, hnotin]

/-- Witness for C9 (amended): a file missing only the country column is
rejected by read_raw_all's check with an error naming file and column. -/
theorem required_columns_amended_witness :
    QaqcVendorData.read_raw_file_check "file1.csv"
      ["platform", "month", "seller_used_id", "spu_used_id", "source"] =
      Except.error "file1.csv missing columns: country" := by
  have h := (required_columns_amended "file1.csv"
    ["platform", "month", "seller_used_id", "spu_used_id", "source"]
    (fun _ => ("SINGLE_SOURCE", "single_source")) []).1 (by decide)
  exact h

/-- Helper: inversion of the per-metric scan body — an emitted row carries
the (spu, month) key and vendor-group count it was scanned with. -/
lemma check_metric_some_fields (rows : List CheckMetricSameMonth.RawRow)
    (cfg : String → CheckMetricSameMonth.Band) (fail_status spu month : String) (cnt : ℕ)
    (metric : String × (CheckMetricSameMonth.RawRow → Option ℚ))
    (out : CheckMetricSameMonth.SameMonthOutRow)
    (h : CheckMetricSameMonth.check_metric rows cfg fail_status spu month cnt metric = some out) :
    out.spu_used_id = spu ∧ out.month = month ∧ out.vendor_group_count = cnt := by
  unfold CheckMetricSameMonth.check_metric at h
  split at h
  · dsimp only at h
    split_ifs at h
    injection h with h'
    subst h'
    exact ⟨rfl, rfl, rfl⟩
  · exact Option.noConfusion h

/-- C7: every row emitted by the same-period consistency check carries the
group's actual distinct vendor_group count, and that count is at least 2;
hence a (spu, month) group with fewer than two distinct vendor_group
values never appears in the output for any metric. -/
theorem same_month_check_vendor_count (rows : List CheckMetricSameMonth.RawRow)
    (cfg : String → CheckMetricSameMonth.Band) (fail_status : String)
    (out : CheckMetricSameMonth.SameMonthOutRow)
    (hmem : out ∈ CheckMetricSameMonth.run_spu_metric_same_month rows cfg fail_status) :
    out.vendor_group_count =
      CheckMetricSameMonth.vendor_group_count rows out.spu_used_id out.month ∧
    2 ≤ out.vendor_group_count := by
  unfold CheckMetricSameMonth.run_spu_metric_same_month at hmem
  rw [List.mem_flatMap] at hmem
  obtain ⟨k, hk, hout⟩ := hmem
  rw [List.mem_filter] at hk
  have hcnt : 2 ≤ CheckMetricSameMonth.vendor_group_count rows k.1 k.2 := by
    simpa using hk.2
  rw [List.mem_filterMap] at hout
  obtain ⟨metric, _, hcm⟩ := hout
  obtain ⟨h1, h2, h3⟩ := check_metric_some_fields rows cfg fail_status k.1 k.2 _ metric out hcm
  constructor
  · rw [h3, h1, h2]
  · rw [h3]
    exact hcnt

/-- Witness for C7: on the two-vendor fixture the check emits the asp row
with vendor_group_count 2, and the theorem applies to it. -/
theorem same_month_check_vendor_count_witness :
    (⟨"S1", "2024-01", "asp", 2, 1000, "FAIL"⟩ : CheckMetricSameMonth.SameMonthOutRow) ∈
      CheckMetricSameMonth.run_spu_metric_same_month CheckMetricSameMonth.sample_rows
        CheckMetricSameMonth.sample_cfg "FAIL" ∧
    2 ≤ (⟨"S1", "2024-01", "asp", 2, 1000, "FAIL"⟩ :
      CheckMetricSameMonth.SameMonthOutRow).vendor_group_count := by
  have hv : CheckMetricSameMonth.metric_values CheckMetricSameMonth.sample_rows "S1" "2024-01"
      ("asp", CheckMetricSameMonth.RawRow.asp).2 = [1, 10] := by decide
  have hmin : CheckMetricSameMonth.qmin [(1 : ℚ), 10] = some 1 := by
    simp only [CheckMetricSameMonth.qmin, List.foldl]
    rw [min_eq_left (by norm_num : (1 : ℚ) ≤ 10)]
  have hmax : CheckMetricSameMonth.qmax [(1 : ℚ), 10] = some 10 := by
    simp only [CheckMetricSameMonth.qmax, List.foldl]
    rw [max_eq_right (by norm_num : (1 : ℚ) ≤ 10)]
  have hwcnt : CheckMetricSameMonth.vendor_group_count CheckMetricSameMonth.sample_rows
      "S1" "2024-01" = 2 := by decide
  have hcm : CheckMetricSameMonth.check_metric CheckMetricSameMonth.sample_rows
      CheckMetricSameMonth.sample_cfg "FAIL" "S1" "2024-01" 2
      ("asp", CheckMetricSameMonth.RawRow.asp) =
      some ⟨"S1", "2024-01", "asp", 2, 1000, "FAIL"⟩ := by
    unfold CheckMetricSameMonth.check_metric
    rw [hv, hmin, hmax]
    show (if (1 : ℚ) ≤ 0 then (none : Option CheckMetricSameMonth.SameMonthOutRow)
      else if (90 : ℚ) ≤ 10 / 1 * 100 ∧ (10 : ℚ) / 1 * 100 ≤ 110 then none
      else some (⟨"S1", "2024-01", "asp", 2, 10 / 1 * 100, "FAIL"⟩ :
        CheckMetricSameMonth.SameMonthOutRow)) =
      some (⟨"S1", "2024-01", "asp", 2, 1000, "FAIL"⟩ : CheckMetricSameMonth.SameMonthOutRow)
    rw [if_neg (by norm_num : ¬ (1 : ℚ) ≤ 0),
      if_neg (by norm_num : ¬ ((90 : ℚ) ≤ 10 / 1 * 100 ∧ (10 : ℚ) / 1 * 100 ≤ 110))]
    have h1000 : (10 : ℚ) / 1 * 100 = 1000 := by norm_num
    rw [h1000]
  have hkmem : ("S1", "2024-01") ∈
      ((CheckMetricSameMonth.sample_rows.filter
        (fun r => decide (r.vendor_group ≠ none))).map
        (fun r => (r.spu_used_id, r.month))).dedup.filter
        (fun k => decide (2 ≤ CheckMetricSameMonth.vendor_group_count
          CheckMetricSameMonth.sample_rows k.1 k.2)) := by decide
  have hmet : ("asp", CheckMetricSameMonth.RawRow.asp) ∈ CheckMetricSameMonth.METRICS := by
    unfold CheckMetricSameMonth.METRICS
    exact List.mem_cons_self _ _
  have hfm : (⟨"S1", "2024-01", "asp", 2, 1000, "FAIL"⟩ : CheckMetricSameMonth.SameMonthOutRow) ∈
      CheckMetricSameMonth.METRICS.filterMap
        (CheckMetricSameMonth.check_metric CheckMetricSameMonth.sample_rows
          CheckMetricSameMonth.sample_cfg "FAIL" "S1" "2024-01"
          (CheckMetricSameMonth.vendor_group_count CheckMetricSameMonth.sample_rows
            "S1" "2024-01")) := by
    refine List.mem_filterMap.2 ⟨("asp", CheckMetricSameMonth.RawRow.asp), hmet, ?_⟩
    rw [hwcnt]
    exact hcm
  have hm : (⟨"S1", "2024-01", "asp", 2, 1000, "FAIL"⟩ : CheckMetricSameMonth.SameMonthOutRow) ∈
      CheckMetricSameMonth.run_spu_metric_same_month CheckMetricSameMonth.sample_rows
        CheckMetricSameMonth.sample_cfg "FAIL" := by
    unfold CheckMetricSameMonth.run_spu_metric_same_month
    exact List.mem_flatMap.2 ⟨("S1", "2024-01"), hkmem, hfm⟩
  exact ⟨hm, (same_month_check_vendor_count CheckMetricSameMonth.sample_rows
    CheckMetricSameMonth.sample_cfg "FAIL" _ hm).2⟩
